import Mathlib

/-!
Verification of the one-time authentication token subsystem of the
vrno-backend repository (src/api/app.py): token generation
(generate_secure_token), issuance (create_auth_token), verification with
single-use consumption (verify_and_consume_token), and the expiry sweeper
(cleanup_expired_tokens).

Modelling choices:
- The auth_tokens table is a list of rows, in insertion order; the
  Supabase calls used by the code become list operations:
  insert is an append, the filtered select is List.filter followed by
  taking the first row, update with an eq filter maps over matching rows,
  delete with an lt filter drops the matching rows.
- Timestamps (datetime.now().isoformat()) are modelled as integers
  measured in minutes; ISO-8601 strings of a fixed clock compare
  lexicographically exactly as their instants compare, so gt and lt on
  the stored strings become the integer order.
- The random source consumed by secrets.token_hex(32) is modelled as the
  list of 32 bytes it draws; generate_secure_token is a pure function of
  those bytes.
- Python values passed as user_id may be of any type and are coerced by
  str(...); a small PyVal type with a pyStr coercion models this.
- Fallible store access: the code catches every exception from the
  Supabase client and also checks whether the client is initialized.
  The run-variants of the operations take explicit flags for client
  availability and operation success to model those paths.
-/

/-- A row of the auth_tokens table (src/api/app.py lines 101 to 106):
columns token, user_id, expires_at, purpose and the nullable used_at. -/
structure AuthToken where
  token : String
  user_id : String
  expires_at : Int
  purpose : String
  used_at : Option Int
deriving Repr, DecidableEq

/-- The auth_tokens table, rows in insertion order. -/
abbrev Store := List AuthToken

/-- A Python value supplied as user_id: the code stores str(user_id),
so non-string subjects are coerced (app.py line 103). -/
inductive PyVal where
  | str : String → PyVal
  | int : Int → PyVal
deriving Repr, DecidableEq

/-- Python str(...) on a PyVal. -/
def pyStr : PyVal → String
  | .str s => s
  | .int n => toString n

/-- Result dictionary of verify_and_consume_token: the code returns
either the dictionary with valid set to True and a userId, or the
dictionary with valid set to False and no userId key. -/
structure VerifyResult where
  valid : Bool
  userId : Option String
deriving Repr, DecidableEq

/-- One lowercase hexadecimal digit character, as used by
secrets.token_hex: digits for values below ten, then letters from a. -/
def hexDigit (n : Nat) : Char :=
  if n < 10 then Char.ofNat (48 + n) else Char.ofNat (87 + n)

/-- Two hexadecimal characters of one byte, high nibble first. -/
def byteToHex (b : Nat) : List Char := [hexDigit (b / 16), hexDigit (b % 16)]

/-- Python secrets.token_hex on a list of drawn bytes: the concatenation
of the two-character hexadecimal form of each byte. -/
def token_hex (bytes : List Nat) : String := ⟨(bytes.map byteToHex).flatten⟩

/-- generate_secure_token (app.py lines 87 to 89): secrets.token_hex(32),
a pure function of the 32 bytes drawn from the random source. -/
def generate_secure_token (randomBytes : List Nat) : String :=
  token_hex randomBytes

/-- create_auth_token (app.py lines 91 to 110), success path: computes
expires_at = now + expires_in_minutes, inserts the new row with
user_id = str(user_id) and no used_at, and returns the token.
The token produced by generate_secure_token is passed in explicitly,
standing for the value drawn from the random source. -/
def create_auth_token (db : Store) (now : Int) (tok : String) (user_id : PyVal)
    (purpose : String) (expires_in_minutes : Int) : Store × Option String :=
  (db ++ [⟨tok, pyStr user_id, now + expires_in_minutes, purpose, none⟩], some tok)

/-- create_auth_token with the default expires_in_minutes=15
(app.py line 91). -/
def create_auth_token_default (db : Store) (now : Int) (tok : String)
    (user_id : PyVal) (purpose : String) : Store × Option String :=
  create_auth_token db now tok user_id purpose 15

/-- The row filter of the select on app.py line 124: token matches,
purpose matches, expires_at strictly greater than the current time,
and used_at is null. -/
def tokenMatches (now : Int) (tok purpose : String) (r : AuthToken) : Bool :=
  r.token == tok && r.purpose == purpose && decide (now < r.expires_at)
    && r.used_at == none

/-- The SELECT step of verify_and_consume_token (app.py line 124):
the user_id of the first row matching the filter, if any. -/
def selectValidToken (db : Store) (now : Int) (tok purpose : String) :
    Option String :=
  ((db.filter (tokenMatches now tok purpose)).head?).map AuthToken.user_id

/-- The UPDATE step of verify_and_consume_token (app.py line 129): set
used_at = current_time on every row whose token column matches; the
update is filtered by token only and is not conditional on used_at. -/
def markTokenUsed (db : Store) (now : Int) (tok : String) : Store :=
  db.map (fun r =>
    if r.token == tok then ⟨r.token, r.user_id, r.expires_at, r.purpose, some now⟩
    else r)

/-- verify_and_consume_token (app.py lines 115 to 134), no-error path:
current_time is read once; the select runs first, and only if it returned
a row does the separate update run, after which valid True and the
selected userId are returned; otherwise valid False. -/
def verify_and_consume_token (db : Store) (now : Int) (tok purpose : String) :
    Store × VerifyResult :=
  match selectValidToken db now tok purpose with
  | some uid => (markTokenUsed db now tok, ⟨true, some uid⟩)
  | none => (db, ⟨false, none⟩)

/-- Outcome of a create_auth_token call including its failure paths:
the function raises when the Supabase client is not initialized
(app.py line 95) and returns a value otherwise. -/
inductive IssueOutcome where
  | raised : IssueOutcome
  | ret : Option String → IssueOutcome
deriving Repr, DecidableEq

/-- create_auth_token with its error paths (app.py lines 91 to 113):
raises if the client is unavailable; if the insert raises, the exception
is caught, the error is logged, and None is returned with the table
unchanged; otherwise the success path runs. -/
def create_auth_token_run (clientAvailable insertOk : Bool) (db : Store)
    (now : Int) (tok : String) (user_id : PyVal) (purpose : String)
    (expires_in_minutes : Int) : Store × IssueOutcome :=
  if clientAvailable then
    if insertOk then
      let p := create_auth_token db now tok user_id purpose expires_in_minutes
      (p.1, .ret p.2)
    else (db, .ret none)
  else (db, .raised)

/-- verify_and_consume_token with its error paths (app.py lines 115 to
134): if the client is unavailable the dictionary with valid False is
returned; if the store access raises, the exception is caught, the error
is logged, and the same valid False dictionary is returned; otherwise
the no-error path runs. -/
def verify_and_consume_token_run (clientAvailable storeOk : Bool) (db : Store)
    (now : Int) (tok purpose : String) : Store × VerifyResult :=
  if clientAvailable then
    if storeOk then verify_and_consume_token db now tok purpose
    else (db, ⟨false, none⟩)
  else (db, ⟨false, none⟩)

/-- cleanup_expired_tokens (app.py lines 921 to 933): one bulk delete of
every row whose expires_at is strictly less than the current time; the
delete is filtered by expires_at only. -/
def cleanup_expired_tokens (db : Store) (now : Int) : Store :=
  db.filter (fun r => !decide (r.expires_at < now))

/-- Interleaved execution of two concurrent verify_and_consume_token
calls on the same token and purpose in which both SELECT steps are
scheduled before either UPDATE step, the schedule admitted by the code
because the select on line 124 and the update on line 129 are two
separate store operations. Returns the two results and the final table. -/
def twoVerifiesSelectsFirst (db : Store) (now : Int) (tok purpose : String) :
    VerifyResult × VerifyResult × Store :=
  let s1 := selectValidToken db now tok purpose
  let s2 := selectValidToken db now tok purpose
  let db1 := match s1 with
    | some _ => markTokenUsed db now tok
    | none => db
  let db2 := match s2 with
    | some _ => markTokenUsed db1 now tok
    | none => db1
  (⟨s1.isSome, s1⟩, ⟨s2.isSome, s2⟩, db2)

/-! Helper lemmas about the row filter, the select step and the update step. -/

lemma tokenMatches_iff (now : Int) (tok purpose : String) (r : AuthToken) :
    tokenMatches now tok purpose r = true ↔
      r.token = tok ∧ r.purpose = purpose ∧ now < r.expires_at ∧
        r.used_at = none := by
  simp [tokenMatches, and_assoc]

lemma selectValidToken_eq_none_iff (db : Store) (now : Int) (tok purpose : String) :
    selectValidToken db now tok purpose = none ↔
      ∀ r ∈ db, ¬ tokenMatches now tok purpose r = true := by
  simp [selectValidToken, List.head?_eq_none_iff, List.filter_eq_nil_iff]

lemma selectValidToken_eq_some (db : Store) (now : Int) (tok purpose : String)
    (uid : String) (h : selectValidToken db now tok purpose = some uid) :
    ∃ r ∈ db, tokenMatches now tok purpose r = true ∧ r.user_id = uid := by
  unfold selectValidToken at h
  rcases h2 : (db.filter (tokenMatches now tok purpose)).head? with _ | r
  · rw [h2] at h; simp at h
  · rw [h2] at h
    simp only [Option.map_some'] at h
    rcases List.head?_eq_some_iff.mp h2 with ⟨ys, hys⟩
    have hr : r ∈ db.filter (tokenMatches now tok purpose) := by
      rw [hys]; exact List.mem_cons_self _ _
    rcases List.mem_filter.mp hr with ⟨hmem, hmatch⟩
    exact ⟨r, hmem, hmatch, Option.some.inj h⟩

lemma verify_of_none (db : Store) (now : Int) (tok purpose : String)
    (h : selectValidToken db now tok purpose = none) :
    verify_and_consume_token db now tok purpose = (db, ⟨false, none⟩) := by
  unfold verify_and_consume_token; rw [h]

lemma verify_of_some (db : Store) (now : Int) (tok purpose : String) (uid : String)
    (h : selectValidToken db now tok purpose = some uid) :
    verify_and_consume_token db now tok purpose =
      (markTokenUsed db now tok, ⟨true, some uid⟩) := by
  unfold verify_and_consume_token; rw [h]

lemma verify_valid_iff (db : Store) (now : Int) (tok purpose : String) :
    (verify_and_consume_token db now tok purpose).2.valid = true ↔
      ∃ r ∈ db, tokenMatches now tok purpose r = true := by
  rcases h : selectValidToken db now tok purpose with _ | uid
  · rw [verify_of_none db now tok purpose h]
    rw [selectValidToken_eq_none_iff] at h
    simpa using h
  · rw [verify_of_some db now tok purpose uid h]
    rcases selectValidToken_eq_some db now tok purpose uid h with ⟨r, hr, hm, _⟩
    simpa using ⟨r, hr, hm⟩

lemma markTokenUsed_no_match (db : Store) (now now2 : Int) (tok purpose : String) :
    ∀ r ∈ markTokenUsed db now tok, tokenMatches now2 tok purpose r = false := by
  intro r hr
  rcases List.mem_map.mp hr with ⟨s, _, rfl⟩
  rcases h : s.token == tok with _ | _
  · simp [markTokenUsed, tokenMatches, h]
  · simp [markTokenUsed, tokenMatches, h]

lemma issue_fresh_then_verify (db : Store) (now : Int) (tok : String) (u : PyVal)
    (purpose : String) (ttl : Int) (hfresh : ∀ r ∈ db, r.token ≠ tok)
    (httl : 0 < ttl) :
    (verify_and_consume_token
        (create_auth_token db now tok u purpose ttl).1 now tok purpose).2
      = ⟨true, some (pyStr u)⟩ := by
  have hnew : tokenMatches now tok purpose ⟨tok, pyStr u, now + ttl, purpose, none⟩
      = true := by
    rw [tokenMatches_iff]
    refine ⟨rfl, rfl, ?_, rfl⟩
    show now < now + ttl
    omega
  have hfil : List.filter (tokenMatches now tok purpose)
        (db ++ [(⟨tok, pyStr u, now + ttl, purpose, none⟩ : AuthToken)])
      = [⟨tok, pyStr u, now + ttl, purpose, none⟩] := by
    rw [List.filter_append]
    have h1 : db.filter (tokenMatches now tok purpose) = [] := by
      rw [List.filter_eq_nil_iff]
      intro r hr hm
      exact hfresh r hr ((tokenMatches_iff now tok purpose r).mp hm).1
    rw [h1]
    simp [hnew]
  have hsel : selectValidToken
      (db ++ [(⟨tok, pyStr u, now + ttl, purpose, none⟩ : AuthToken)])
      now tok purpose = some (pyStr u) := by
    unfold selectValidToken
    rw [hfil]
    rfl
  show (verify_and_consume_token
      (db ++ [(⟨tok, pyStr u, now + ttl, purpose, none⟩ : AuthToken)])
      now tok purpose).2 = ⟨true, some (pyStr u)⟩
  rw [verify_of_some _ _ _ _ _ hsel]

/-- C2: verify_and_consume_token succeeds if and only if a row with the
requested token exists whose purpose matches, whose expires_at is strictly
later than the current time, and whose used_at is null; in every other
case it returns the Invalid dictionary with valid False and no userId. -/
theorem verify_and_consume_token_success_iff (db : Store) (now : Int)
    (tok purpose : String) :
    ((verify_and_consume_token db now tok purpose).2.valid = true ↔
      ∃ r ∈ db, r.token = tok ∧ r.purpose = purpose ∧ now < r.expires_at ∧
        r.used_at = none) ∧
    ((verify_and_consume_token db now tok purpose).2.valid = false →
      (verify_and_consume_token db now tok purpose).2 = ⟨false, none⟩) := by
  constructor
  · rw [verify_valid_iff]
    constructor
    · rintro ⟨r, hm, hmat⟩
      exact ⟨r, hm, (tokenMatches_iff now tok purpose r).mp hmat⟩
    · rintro ⟨r, hm, hmat⟩
      exact ⟨r, hm, (tokenMatches_iff now tok purpose r).mpr hmat⟩
  · intro hfalse
    rcases h : selectValidToken db now tok purpose with _ | uid
    · rw [verify_of_none db now tok purpose h]
    · rw [verify_of_some db now tok purpose uid h] at hfalse ⊢
      simp at hfalse

/-- C2 witness: in a one-row table holding a still-valid matching token,
the success condition holds and the call succeeds. -/
theorem verify_and_consume_token_success_iff_witness :
    (verify_and_consume_token [⟨"t1", "u42", 10, "p", none⟩] 0 "t1" "p").2.valid
      = true :=
  (verify_and_consume_token_success_iff [⟨"t1", "u42", 10, "p", none⟩] 0 "t1" "p").1.mpr
    ⟨⟨"t1", "u42", 10, "p", none⟩, List.mem_cons_self _ _, rfl, rfl, by decide, rfl⟩

/-- C3: once a verify_and_consume_token call on a token and purpose has
succeeded, any later verify_and_consume_token call on the resulting table
with the same token and purpose returns valid False, at any later (or any)
current time. -/
theorem second_verify_invalid (db : Store) (now now2 : Int) (tok purpose : String)
    (h : (verify_and_consume_token db now tok purpose).2.valid = true) :
    (verify_and_consume_token (verify_and_consume_token db now tok purpose).1
        now2 tok purpose).2.valid = false := by
  rcases hsel : selectValidToken db now tok purpose with _ | uid
  · rw [verify_of_none db now tok purpose hsel] at h
    simp at h
  · rw [verify_of_some db now tok purpose uid hsel]
    have hnone : selectValidToken (markTokenUsed db now tok) now2 tok purpose
        = none := by
      rw [selectValidToken_eq_none_iff]
      intro r hr
      simp [markTokenUsed_no_match db now now2 tok purpose r hr]
    rw [verify_of_none _ _ _ _ hnone]

/-- C3 witness: concrete first success followed by a failed second call. -/
theorem second_verify_invalid_witness :
    (verify_and_consume_token
        (verify_and_consume_token [⟨"t1", "u42", 10, "p", none⟩] 0 "t1" "p").1
        1 "t1" "p").2.valid = false :=
  second_verify_invalid [⟨"t1", "u42", 10, "p", none⟩] 0 1 "t1" "p" (by decide)

/-- C4: issuing a token for a string subject with a positive ttl and
immediately verifying it with the same purpose succeeds and returns
exactly the issued subject; the freshness hypothesis reflects that
generate_secure_token draws a token not already present in the table. -/
theorem issue_then_verify_roundtrip (db : Store) (now : Int)
    (tok subject purpose : String) (ttl : Int)
    (hfresh : ∀ r ∈ db, r.token ≠ tok) (httl : 0 < ttl) :
    (verify_and_consume_token
        (create_auth_token db now tok (PyVal.str subject) purpose ttl).1
        now tok purpose).2 = ⟨true, some subject⟩ :=
  issue_fresh_then_verify db now tok (PyVal.str subject) purpose ttl hfresh httl

/-- C4 witness: the example of the specification, subject user-42 and
purpose balance-reveal with ttl 15 on an empty table. -/
theorem issue_then_verify_roundtrip_witness :
    (verify_and_consume_token
        (create_auth_token [] 0 "tk" (PyVal.str "user-42") "balance-reveal" 15).1
        0 "tk" "balance-reveal").2 = ⟨true, some "user-42"⟩ :=
  issue_then_verify_roundtrip [] 0 "tk" "user-42" "balance-reveal" 15
    (by intro r hr; simp at hr) (by decide)

/-- C5 counterexample: on a storage error the call returns the very same
dictionary as for an invalid (here: nonexistent) token, so the caller
cannot tell a storage failure apart from an invalid token. -/
theorem storage_error_same_as_invalid_cex :
    (verify_and_consume_token_run true false [] 0 "t" "p").2 =
      (verify_and_consume_token_run true true [] 0 "t" "p").2 := rfl

/-- C5 amended: verify_and_consume_token returns the identical valid False
dictionary whether the store errors, the client is unavailable, or the
token is simply not in the table; create_auth_token returns None when the
insert errors and raises only when the client is uninitialized. Storage
failures are therefore not surfaced distinctly from Invalid by
verify_and_consume_token. -/
theorem storage_error_results (db : Store) (now : Int) (tok purpose tk : String)
    (u : PyVal) (ttl : Int) (hnone : ∀ r ∈ db, r.token ≠ tok) :
    (verify_and_consume_token_run true false db now tok purpose).2 =
      (verify_and_consume_token_run true true db now tok purpose).2 ∧
    (verify_and_consume_token_run false true db now tok purpose).2 =
      (verify_and_consume_token_run true true db now tok purpose).2 ∧
    (create_auth_token_run true false db now tk u purpose ttl) =
      (db, IssueOutcome.ret none) ∧
    (create_auth_token_run false true db now tk u purpose ttl) =
      (db, IssueOutcome.raised) := by
  have hsel : selectValidToken db now tok purpose = none := by
    rw [selectValidToken_eq_none_iff]
    intro r hr hm
    exact hnone r hr ((tokenMatches_iff now tok purpose r).mp hm).1
  refine ⟨?_, ?_, rfl, rfl⟩
  · show (⟨false, none⟩ : VerifyResult) = (verify_and_consume_token db now tok purpose).2
    rw [verify_of_none db now tok purpose hsel]
  · show (⟨false, none⟩ : VerifyResult) = (verify_and_consume_token db now tok purpose).2
    rw [verify_of_none db now tok purpose hsel]

/-- C5 amended witness: on a one-row table holding an unrelated token, the
error run and the clean run return the same dictionary. -/
theorem storage_error_results_witness :
    (verify_and_consume_token_run true false [⟨"a", "u", 9, "p", none⟩] 0 "t" "p").2 =
      (verify_and_consume_token_run true true [⟨"a", "u", 9, "p", none⟩] 0 "t" "p").2 :=
  (storage_error_results [⟨"a", "u", 9, "p", none⟩] 0 "t" "p" "tk"
    (PyVal.str "u") 15 (by intro r hr; simp at hr; simp [hr])).1

/-- C6: create_auth_token appends exactly one new pending row, keyed by
the generated token, carrying the coerced subject, the requested purpose,
expires_at computed as now plus the ttl, and a null used_at; it returns
the token, and every preexisting row is still in the table unchanged. -/
theorem create_auth_token_spec (db : Store) (now : Int) (tok : String)
    (u : PyVal) (purpose : String) (ttl : Int) :
    (create_auth_token db now tok u purpose ttl).1 =
      db ++ [⟨tok, pyStr u, now + ttl, purpose, none⟩] ∧
    (create_auth_token db now tok u purpose ttl).2 = some tok ∧
    ∀ r ∈ db, r ∈ (create_auth_token db now tok u purpose ttl).1 :=
  ⟨rfl, rfl, fun _ hr => List.mem_append_left _ hr⟩

/-- C6 witness: issuing over a one-row table keeps the old row. -/
theorem create_auth_token_spec_witness :
    (⟨"t0", "u0", 5, "q", none⟩ : AuthToken) ∈
      (create_auth_token [⟨"t0", "u0", 5, "q", none⟩] 0 "tk"
        (PyVal.str "u") "p" 7).1 :=
  (create_auth_token_spec [⟨"t0", "u0", 5, "q", none⟩] 0 "tk"
      (PyVal.str "u") "p" 7).2.2
    ⟨"t0", "u0", 5, "q", none⟩ (List.mem_cons_self _ _)

/-- C7: one sweeper tick removes exactly the rows whose expires_at is
strictly before the current time, whatever their used_at; rows with
expires_at at or after the current time stay; and a second tick at the
same time over the swept table is a no-op. -/
theorem cleanup_expired_tokens_spec (db : Store) (now : Int) :
    (∀ r ∈ db, r.expires_at < now → r ∉ cleanup_expired_tokens db now) ∧
    (∀ r ∈ db, now ≤ r.expires_at → r ∈ cleanup_expired_tokens db now) ∧
    cleanup_expired_tokens (cleanup_expired_tokens db now) now =
      cleanup_expired_tokens db now := by
  refine ⟨?_, ?_, ?_⟩
  · intro r _ hlt hmem
    rcases List.mem_filter.mp hmem with ⟨_, hp⟩
    simp at hp
    omega
  · intro r hr hle
    refine List.mem_filter.mpr ⟨hr, ?_⟩
    simp
    omega
  · rw [cleanup_expired_tokens, cleanup_expired_tokens, List.filter_filter]
    congr 1
    funext r
    rw [Bool.and_self]

/-- C7 witness: at time 5, an expired consumed row is removed and an
unexpired pending row is kept. -/
theorem cleanup_expired_tokens_spec_witness :
    (⟨"a", "u", 0, "p", some 0⟩ : AuthToken) ∉
      cleanup_expired_tokens [⟨"a", "u", 0, "p", some 0⟩, ⟨"b", "v", 9, "p", none⟩] 5 ∧
    (⟨"b", "v", 9, "p", none⟩ : AuthToken) ∈
      cleanup_expired_tokens [⟨"a", "u", 0, "p", some 0⟩, ⟨"b", "v", 9, "p", none⟩] 5 :=
  ⟨(cleanup_expired_tokens_spec [⟨"a", "u", 0, "p", some 0⟩, ⟨"b", "v", 9, "p", none⟩] 5).1
      ⟨"a", "u", 0, "p", some 0⟩ (List.mem_cons_self _ _) (by decide),
   (cleanup_expired_tokens_spec [⟨"a", "u", 0, "p", some 0⟩, ⟨"b", "v", 9, "p", none⟩] 5).2.1
      ⟨"b", "v", 9, "p", none⟩ (by simp) (by decide)⟩

/-- C8 counterexample: a consumed row (used_at set) whose expires_at has
passed is deleted by the sweeper tick, so consumed rows are not preserved
by every tick. -/
theorem cleanup_deletes_consumed_cex :
    (⟨"t", "u", 0, "p", some 0⟩ : AuthToken).used_at ≠ none ∧
    cleanup_expired_tokens [⟨"t", "u", 0, "p", some 0⟩] 5 = [] := by
  constructor
  · simp
  · rfl

/-- C8 amended: the sweeper filters by expiry alone, so a consumed row is
kept by a tick exactly while its expires_at is at or after the current
time; once expired it is deleted like any other row, and a transition
from consumed to deleted-by-sweeper does exist. -/
theorem cleanup_consumed_iff_unexpired (db : Store) (now : Int) :
    ∀ r ∈ db, r.used_at ≠ none →
      (r ∈ cleanup_expired_tokens db now ↔ now ≤ r.expires_at) := by
  intro r hr _
  constructor
  · intro hmem
    rcases List.mem_filter.mp hmem with ⟨_, hp⟩
    simp at hp
    omega
  · intro hle
    refine List.mem_filter.mpr ⟨hr, ?_⟩
    simp
    omega

/-- C8 amended witness: an unexpired consumed row is kept by the tick. -/
theorem cleanup_consumed_iff_unexpired_witness :
    (⟨"t", "u", 9, "p", some 0⟩ : AuthToken) ∈
      cleanup_expired_tokens [⟨"t", "u", 9, "p", some 0⟩] 5 :=
  (cleanup_consumed_iff_unexpired [⟨"t", "u", 9, "p", some 0⟩] 5
      ⟨"t", "u", 9, "p", some 0⟩ (List.mem_cons_self _ _) (by simp)).mpr (by decide)

/-- C10: when the ttl argument is omitted it defaults to 15 minutes, so
the stored expires_at is now plus 15; and the subject is stored through
str(...), so verifying a token issued for an integer subject returns the
decimal string form of that subject. -/
theorem default_ttl_and_str_coercion (db : Store) (now : Int) (tok : String)
    (n : Int) (purpose : String) (hfresh : ∀ r ∈ db, r.token ≠ tok) :
    (create_auth_token_default db now tok (PyVal.int n) purpose).1 =
      db ++ [⟨tok, toString n, now + 15, purpose, none⟩] ∧
    (verify_and_consume_token
        (create_auth_token_default db now tok (PyVal.int n) purpose).1
        now tok purpose).2 = ⟨true, some (toString n)⟩ := by
  constructor
  · rfl
  · exact issue_fresh_then_verify db now tok (PyVal.int n) purpose 15 hfresh
      (by decide)

/-- C10 witness: issuing with the default ttl for the integer subject 7
stores expires_at 15 past the current time 0 and verifies to the string
form of 7. -/
theorem default_ttl_and_str_coercion_witness :
    (create_auth_token_default [] 0 "tk" (PyVal.int 7) "p").1 =
      [⟨"tk", "7", 15, "p", none⟩] ∧
    (verify_and_consume_token (create_auth_token_default [] 0 "tk"
        (PyVal.int 7) "p").1 0 "tk" "p").2 = ⟨true, some "7"⟩ :=
  ⟨(default_ttl_and_str_coercion [] 0 "tk" 7 "p" (by intro r hr; simp at hr)).1,
   (default_ttl_and_str_coercion [] 0 "tk" 7 "p" (by intro r hr; simp at hr)).2⟩

/-- C1: the claim asserts that among concurrent verify_and_consume_token
calls on one still-valid token exactly one succeeds, the check of used_at
and the setting of used_at being one atomic conditional store operation.
In the code the select on app.py line 124 and the unconditional update on
line 129 are two separate store operations, so the schedule in which both
calls run their select before either update is admitted, and on a table
holding one still-valid token both calls return valid True. -/
theorem race_both_succeed :
    (twoVerifiesSelectsFirst [⟨"t1", "u42", 10, "p", none⟩] 0 "t1" "p").1.valid
      = true ∧
    (twoVerifiesSelectsFirst [⟨"t1", "u42", 10, "p", none⟩] 0 "t1" "p").2.1.valid
      = true := by
  constructor
  · rfl
  · rfl

lemma token_hex_length (bytes : List Nat) :
    (token_hex bytes).length = 2 * bytes.length := by
  show ((bytes.map byteToHex).flatten).length = 2 * bytes.length
  induction bytes with
  | nil => rfl
  | cons b bs ih =>
      rw [List.map_cons, List.flatten_cons, List.length_append, ih]
      show 2 + 2 * bs.length = 2 * (bs.length + 1)
      omega

lemma hexDigit_inj : ∀ a < 16, ∀ b < 16, hexDigit a = hexDigit b → a = b := by
  decide

lemma byteToHex_inj (a b : Nat) (ha : a < 256) (hb : b < 256)
    (h : byteToHex a = byteToHex b) : a = b := by
  simp only [byteToHex, List.cons.injEq, and_true] at h
  rcases h with ⟨h1, h2⟩
  have d1 : a / 16 = b / 16 :=
    hexDigit_inj (a / 16) (by omega) (b / 16) (by omega) h1
  have d2 : a % 16 = b % 16 :=
    hexDigit_inj (a % 16) (by omega) (b % 16) (by omega) h2
  omega

lemma token_hex_chars_inj : ∀ l1 l2 : List Nat, l1.length = l2.length →
    (∀ b ∈ l1, b < 256) → (∀ b ∈ l2, b < 256) →
    (l1.map byteToHex).flatten = (l2.map byteToHex).flatten → l1 = l2 := by
  intro l1
  induction l1 with
  | nil =>
      intro l2 hlen _ _ _
      cases l2 with
      | nil => rfl
      | cons b t => simp at hlen
  | cons a t ih =>
      intro l2 hlen h1 h2 heq
      cases l2 with
      | nil => simp at hlen
      | cons b t2 =>
          simp only [List.map_cons, List.flatten_cons, byteToHex,
            List.cons_append, List.nil_append, List.cons.injEq] at heq
          rcases heq with ⟨hx, hy, hrest⟩
          have hab : a = b := by
            refine byteToHex_inj a b (h1 a (List.mem_cons_self _ _))
              (h2 b (List.mem_cons_self _ _)) ?_
            simp only [byteToHex, hx, hy]
          have htail : t = t2 := by
            refine ih t2 (by simpa using hlen)
              (fun x hx2 => h1 x (List.mem_cons_of_mem _ hx2))
              (fun x hx2 => h2 x (List.mem_cons_of_mem _ hx2)) hrest
          rw [hab, htail]

lemma token_hex_inj (l1 l2 : List Nat) (hlen : l1.length = l2.length)
    (h1 : ∀ b ∈ l1, b < 256) (h2 : ∀ b ∈ l2, b < 256)
    (h : token_hex l1 = token_hex l2) : l1 = l2 := by
  apply token_hex_chars_inj l1 l2 hlen h1 h2
  have hdata := congrArg String.data h
  simpa [token_hex] using hdata

/-- C9: generate_secure_token is a pure function of the 32 bytes drawn
from the random source; on every 32-byte draw it returns a string of the
fixed length 64, and distinct draws give distinct tokens, so the full
256 bits of drawn randomness (at least the 128 required) are preserved
in the returned token. -/
theorem generate_secure_token_spec :
    (∀ bs : List Nat, bs.length = 32 → (generate_secure_token bs).length = 64) ∧
    (∀ bs1 bs2 : List Nat, bs1.length = 32 → bs2.length = 32 →
      (∀ b ∈ bs1, b < 256) → (∀ b ∈ bs2, b < 256) →
      generate_secure_token bs1 = generate_secure_token bs2 → bs1 = bs2) := by
  constructor
  · intro bs h
    rw [generate_secure_token, token_hex_length, h]
  · intro bs1 bs2 h1 h2 hb1 hb2 heq
    exact token_hex_inj bs1 bs2 (h1.trans h2.symm) hb1 hb2 heq

/-- C9 witness: the all-zero 32-byte draw yields a 64-character token, and
the injectivity part applied to two equal draws. -/
theorem generate_secure_token_spec_witness :
    (generate_secure_token (List.replicate 32 0)).length = 64 ∧
    List.replicate 32 0 = List.replicate 32 (0 : Nat) :=
  ⟨generate_secure_token_spec.1 (List.replicate 32 0) (by decide),
   generate_secure_token_spec.2 (List.replicate 32 0) (List.replicate 32 0)
     (by decide) (by decide) (by decide) (by decide) rfl⟩
